import Mathlib

/-!
Verification development for the monitorcontrol VCP feature-code layer.

Shallow embedding of:
  src/monitorcontrol/vcp/vcp_codes.py   (feature-code registry)
  src/monitorcontrol/vcp/vcp_abc.py     (session contract, maximum-value cache)
  src/monitorcontrol/monitorcontrol.py  (typed feature accessors)

Python ints are embedded as Lean Int (opcodes, which are small naturals used
as dictionary keys, as Nat).  Stateful code is embedded by explicit state
passing on a session-state structure; a Python exception is an `Except.error`
carrying a constructor of `PyErr`, and an `Except.error` result always means
the state passed in was left unchanged (in the embedded functions every
mutation happens only in an `Except.ok` continuation).
-/

deriving instance DecidableEq for Except

/-- Access mode of a VCP code, vcp_codes.py lines 7-11. -/
inductive VCPCodeType
| ro
| wo
| rw
deriving DecidableEq, Repr

/-- Continuity of a VCP code, vcp_codes.py lines 14-17. -/
inductive VCPCodeFunction
| c
| nc
deriving DecidableEq, Repr

/-- Feature-code value object, vcp_codes.py lines 20-26 (frozen dataclass). -/
structure VCPCode where
  name : String
  desc : String
  value : Nat
  type : VCPCodeType
  function : VCPCodeFunction
deriving DecidableEq, Repr

/-- Method `VCPCode.readable`, vcp_codes.py lines 28-30. -/
def VCPCode.readable (self : VCPCode) : Bool :=
  self.type = VCPCodeType.ro ∨ self.type = VCPCodeType.rw

/-- Method `VCPCode.writeable`, vcp_codes.py lines 32-34. -/
def VCPCode.writeable (self : VCPCode) : Bool :=
  self.type = VCPCodeType.wo ∨ self.type = VCPCodeType.rw

/-- Registry entry, vcp_codes.py lines 38-43. -/
def image_factory_default : VCPCode :=
  { name := "image_factory_default", desc := "restore factory default image",
    value := 0x04, type := VCPCodeType.wo, function := VCPCodeFunction.nc }

/-- Registry entry, vcp_codes.py lines 44-49. -/
def image_luminance : VCPCode :=
  { name := "image_luminance", desc := "image luminance",
    value := 0x10, type := VCPCodeType.rw, function := VCPCodeFunction.c }

/-- Registry entry, vcp_codes.py lines 50-55. -/
def image_contrast : VCPCode :=
  { name := "image_contrast", desc := "image contrast",
    value := 0x12, type := VCPCodeType.rw, function := VCPCodeFunction.c }

/-- Registry entry, vcp_codes.py lines 56-61. -/
def image_color_preset : VCPCode :=
  { name := "image_color_preset", desc := "image color preset",
    value := 0x14, type := VCPCodeType.rw, function := VCPCodeFunction.c }

/-- Registry entry, vcp_codes.py lines 62-67. -/
def active_control : VCPCode :=
  { name := "active_control", desc := "active control",
    value := 0x52, type := VCPCodeType.ro, function := VCPCodeFunction.nc }

/-- Registry entry, vcp_codes.py lines 68-73. -/
def input_select : VCPCode :=
  { name := "input_select", desc := "input select",
    value := 0x60, type := VCPCodeType.rw, function := VCPCodeFunction.nc }

/-- Registry entry, vcp_codes.py lines 74-79. -/
def image_orientation : VCPCode :=
  { name := "image_orientation", desc := "image orientation",
    value := 0xAA, type := VCPCodeType.ro, function := VCPCodeFunction.nc }

/-- Registry entry, vcp_codes.py lines 80-85. -/
def display_power_mode : VCPCode :=
  { name := "display_power_mode", desc := "display power mode",
    value := 0xD6, type := VCPCodeType.rw, function := VCPCodeFunction.nc }

/-- The preloaded module-level registry `__VCP_CODES`, vcp_codes.py lines 37-86. -/
def VCP_CODES : List VCPCode :=
  [image_factory_default, image_luminance, image_contrast, image_color_preset,
   active_control, input_select, image_orientation, display_power_mode]

/-- Python exceptions raised by the embedded code, tagged with the spec's
error taxonomy (spec section 7).  Each constructor's comment names the
raising site. -/
inductive PyErr
/-- AssertionError from `assert self._in_ctx` (vcp_abc.py line 97) and the
spec's NotOpen for the modelled transports. -/
| notOpen
/-- TypeError "code is not readable" (vcp_abc.py line 99); spec NotReadable. -/
| notReadable
/-- Spec NotWritable (section 4.2) for the modelled transport write. -/
| notWritable
/-- LookupError "No VCP code matched key" (vcp_codes.py line 99); spec NotFound. -/
| lookupError
/-- TypeError "key must be string or int" (vcp_codes.py line 91); spec InvalidKeyType. -/
| invalidKeyType
/-- ValueError "VCP code with name ... already exists" (vcp_codes.py line 105). -/
| duplicateName (name : String)
/-- ValueError "VCP code with value ... already exists" (vcp_codes.py line 107). -/
| duplicateValue (value : Nat)
/-- ValueError from an enumeration constructor call such as `ColorPreset(value)`
(monitorcontrol.py line 182) on a value matching no member; spec InvalidValue. -/
| invalidValue (value : Int)
/-- AttributeError from `getattr(Enum, name)` on a name matching no member
(monitorcontrol.py lines 180, 285, 357); spec UnknownName. -/
| unknownName (name : String)
/-- TypeError "unsupported ..." from the setters' final else branches
(monitorcontrol.py lines 186, 291, 363); spec UnsupportedValueType. -/
| unsupportedValueType
/-- InputSourceValueError carrying the raw value (monitorcontrol.py lines 66-78, 333). -/
| inputSourceValueError (value : Int)
/-- KeyError from a name-keyed feature-code lookup that misses. -/
| keyError
deriving DecidableEq, Repr

/-- Key argument of `get_vcp_code`, vcp_codes.py line 89: a Python object that
is a string, an int, or anything else (`.other`). -/
inductive VCPKey
| str (s : String)
| int (n : Nat)
| other
deriving DecidableEq, Repr

/-- The search loop of `get_vcp_code`, vcp_codes.py lines 92-99: first entry
whose name (string key) or value (int key) matches; LookupError if none. -/
def vcpCodeSearch : List VCPCode → VCPKey → Except PyErr VCPCode
| [], _ => Except.error PyErr.lookupError
| code :: rest, VCPKey.str s =>
    if code.name = s then Except.ok code else vcpCodeSearch rest (VCPKey.str s)
| code :: rest, VCPKey.int n =>
    if code.value = n then Except.ok code else vcpCodeSearch rest (VCPKey.int n)
| _ :: rest, VCPKey.other => vcpCodeSearch rest VCPKey.other

/-- Function `get_vcp_code`, vcp_codes.py lines 89-99: TypeError for a key that
is neither a string nor an int (line 90-91), else the search loop over the
preloaded registry. -/
def get_vcp_code (key : VCPKey) : Except PyErr VCPCode :=
  match key with
  | VCPKey.other => Except.error PyErr.invalidKeyType
  | k => vcpCodeSearch VCP_CODES k

/-- The collision-check loop of `add_vcp_code`, vcp_codes.py lines 103-107:
for each existing code, in order, raise on a name match, then on a value
match. -/
def addVcpCodeLoop : List VCPCode → VCPCode → Except PyErr Unit
| [], _ => Except.ok ()
| code :: rest, newcode =>
    if newcode.name = code.name then Except.error (PyErr.duplicateName newcode.name)
    else if newcode.value = code.value then Except.error (PyErr.duplicateValue newcode.value)
    else addVcpCodeLoop rest newcode

/-- Function `add_vcp_code`, vcp_codes.py lines 102-109, acting on an explicit
registry state: run the collision loop, then append.  On error the registry is
returned unchanged by construction, matching the Python code, whose only
mutation (`append`, line 109) runs after the loop completes. -/
def add_vcp_code (codes : List VCPCode) (newcode : VCPCode) : Except PyErr (List VCPCode) :=
  match addVcpCodeLoop codes newcode with
  | Except.error e => Except.error e
  | Except.ok _ => Except.ok (codes ++ [newcode])

/-- The registry uniqueness invariant of the spec (section 3): names and
values are each pairwise distinct. -/
def registryUnique (codes : List VCPCode) : Prop :=
  codes.Pairwise (fun a b => a.name ≠ b.name ∧ a.value ≠ b.value)

instance (codes : List VCPCode) : Decidable (registryUnique codes) := by
  unfold registryUnique
  infer_instance

/-- A Python value as passed to the typed setters (monitorcontrol.py accepts
`Union[int, str, Enum]` and dispatches on `isinstance`).  `vFloat` stands for a
Python float, whose payload never influences control flow in the source (no
arithmetic is performed on it); the tag records only its identity. -/
inductive PyVal
| vInt (n : Int)
| vStr (s : String)
| vFloat (tag : Nat)
deriving DecidableEq, Repr

/-- Session state of a `VCP` transport, vcp_abc.py lines 29-33, together with
the observable face of the concrete platform transport.  The concrete
transports (`vcp_windows` / `vcp_linux`, referenced from vcp/<init>.py) are not
under src, so the device side is modelled from the spec (section 6): `device`
maps an opcode to the (current, maximum) pair the device reports, `readCount`
is the spec's transport call counter (section 8), and `writeLog` records each
accepted wire write in order. -/
structure VCPState where
  code_maximum : List (Nat × Int)
  in_ctx : Bool
  device : Nat → Int × Int
  readCount : Nat
  writeLog : List (Nat × PyVal)

/-- Constructor `VCP.__init__`, vcp_abc.py lines 29-33: empty cache, closed. -/
def VCP.initState (device : Nat → Int × Int) : VCPState :=
  { code_maximum := [], in_ctx := false, device := device,
    readCount := 0, writeLog := [] }

/-- Method `VCP.__enter__`, vcp_abc.py lines 35-38: sets the open flag. -/
def VCP.enter (s : VCPState) : VCPState := { s with in_ctx := true }

/-- Method `VCP.__exit__`, vcp_abc.py lines 40-48: clears the open flag (line
47) and returns False; it touches nothing else (in particular it does not
clear `code_maximum`). -/
def VCP.exitState (s : VCPState) : VCPState := { s with in_ctx := false }

/-- Python dictionary lookup `code.value in self.code_maximum` /
`self.code_maximum[code.value]` on the cache. -/
def dictLookup (d : List (Nat × Int)) (k : Nat) : Option Int :=
  match d.find? (fun p => p.1 = k) with
  | some p => some p.2
  | none => none

/-- Python dictionary assignment `self.code_maximum[code.value] = maximum`. -/
def dictInsert : List (Nat × Int) → Nat → Int → List (Nat × Int)
| [], k, v => [(k, v)]
| (k1, v1) :: rest, k, v =>
    if k1 = k then (k, v) :: rest else (k1, v1) :: dictInsert rest k v

/-- Modelled from the spec: `readFeature` of a concrete transport (section
4.2).  The concrete implementations (vcp_windows.py / vcp_linux.py) are not
under src; only the abstract declaration `VCP.get_vcp_feature` (vcp_abc.py
lines 64-78) is.  Per the spec it fails with NotOpen outside an open session,
then with NotReadable if the code is not readable, and otherwise returns the
device's (current, maximum) pair, counting one transport read. -/
def VCP.get_vcp_feature (s : VCPState) (code : VCPCode) :
    Except PyErr ((Int × Int) × VCPState) :=
  if s.in_ctx then
    if code.readable then
      Except.ok (s.device code.value, { s with readCount := s.readCount + 1 })
    else Except.error PyErr.notReadable
  else Except.error PyErr.notOpen

/-- Modelled from the spec: `writeFeature` of a concrete transport (section
4.2); the concrete implementations are not under src, only the abstract
declaration `VCP.set_vcp_feature` (vcp_abc.py lines 50-62).  Per the spec it
fails with NotOpen outside an open session, then with NotWritable if the code
is not writable, and otherwise appends the accepted write to the wire log. -/
def VCP.set_vcp_feature (s : VCPState) (code : VCPCode) (value : PyVal) :
    Except PyErr VCPState :=
  if s.in_ctx then
    if code.writeable then
      Except.ok { s with writeLog := s.writeLog ++ [(code.value, value)] }
    else Except.error PyErr.notWritable
  else Except.error PyErr.notOpen

/-- Modelled from the spec: the transport read as invoked at vcp_abc.py line
104, `self.vcp.get_vcp_feature(code.value)`, which hands the transport a bare
opcode integer rather than a code object.  A bare opcode carries no access
mode, so only the session-open discipline of spec section 4.2 applies. -/
def VCP.get_vcp_feature_by_value (s : VCPState) (value : Nat) :
    Except PyErr ((Int × Int) × VCPState) :=
  if s.in_ctx then
    Except.ok (s.device value, { s with readCount := s.readCount + 1 })
  else Except.error PyErr.notOpen

/-- Truthiness of the attribute access `code.readable` at vcp_abc.py line 98.
In vcp_codes.py (lines 28-30) `readable` is a plain method, not a property, so
the attribute access yields a bound-method object without calling it, and a
bound method is always truthy in Python.  This is the value the condition
`not code.readable` negates. -/
def readableAttrTruthy (_code : VCPCode) : Bool := true

/-- Method `VCP._get_code_maximum`, vcp_abc.py lines 83-106: assert the open
flag (line 97), test `not code.readable` (lines 98-99, via the truthiness of
the un-called bound method), then either return the cached maximum (lines
101-102) or read the feature by opcode, cache its maximum, and return it
(lines 103-106). -/
def VCP.getCodeMaximum (s : VCPState) (code : VCPCode) :
    Except PyErr (Int × VCPState) :=
  if s.in_ctx then
    if readableAttrTruthy code then
      match dictLookup s.code_maximum code.value with
      | some m => Except.ok (m, s)
      | none =>
        match VCP.get_vcp_feature_by_value s code.value with
        | Except.error e => Except.error e
        | Except.ok ((_, maximum), s1) =>
            Except.ok (maximum,
              { s1 with code_maximum := dictInsert s1.code_maximum code.value maximum })
    else Except.error PyErr.notReadable
  else Except.error PyErr.notOpen

/-- Enumeration `ColorPreset`, monitorcontrol.py lines 8-22. -/
inductive ColorPreset
| COLOR_TEMP_4000K
| COLOR_TEMP_5000K
| COLOR_TEMP_6500K
| COLOR_TEMP_7500K
| COLOR_TEMP_8200K
| COLOR_TEMP_9300K
| COLOR_TEMP_10000K
| COLOR_TEMP_11500K
| COLOR_TEMP_USER1
| COLOR_TEMP_USER2
| COLOR_TEMP_USER3
deriving DecidableEq, Repr

/-- Wire value of each `ColorPreset` member, monitorcontrol.py lines 12-22. -/
def ColorPreset.value : ColorPreset → Int
| COLOR_TEMP_4000K => 0x03
| COLOR_TEMP_5000K => 0x04
| COLOR_TEMP_6500K => 0x05
| COLOR_TEMP_7500K => 0x06
| COLOR_TEMP_8200K => 0x07
| COLOR_TEMP_9300K => 0x08
| COLOR_TEMP_10000K => 0x09
| COLOR_TEMP_11500K => 0x0A
| COLOR_TEMP_USER1 => 0x0B
| COLOR_TEMP_USER2 => 0x0C
| COLOR_TEMP_USER3 => 0x0D

/-- Member name of each `ColorPreset` member as declared. -/
def ColorPreset.memberName : ColorPreset → String
| COLOR_TEMP_4000K => "COLOR_TEMP_4000K"
| COLOR_TEMP_5000K => "COLOR_TEMP_5000K"
| COLOR_TEMP_6500K => "COLOR_TEMP_6500K"
| COLOR_TEMP_7500K => "COLOR_TEMP_7500K"
| COLOR_TEMP_8200K => "COLOR_TEMP_8200K"
| COLOR_TEMP_9300K => "COLOR_TEMP_9300K"
| COLOR_TEMP_10000K => "COLOR_TEMP_10000K"
| COLOR_TEMP_11500K => "COLOR_TEMP_11500K"
| COLOR_TEMP_USER1 => "COLOR_TEMP_USER1"
| COLOR_TEMP_USER2 => "COLOR_TEMP_USER2"
| COLOR_TEMP_USER3 => "COLOR_TEMP_USER3"

/-- The members of `ColorPreset` in declaration order. -/
def ColorPreset.members : List ColorPreset :=
  [COLOR_TEMP_4000K, COLOR_TEMP_5000K, COLOR_TEMP_6500K, COLOR_TEMP_7500K,
   COLOR_TEMP_8200K, COLOR_TEMP_9300K, COLOR_TEMP_10000K, COLOR_TEMP_11500K,
   COLOR_TEMP_USER1, COLOR_TEMP_USER2, COLOR_TEMP_USER3]

/-- Python `ColorPreset(value)`: the member with that wire value, if any. -/
def ColorPreset.fromValue (v : Int) : Option ColorPreset :=
  ColorPreset.members.find? (fun m => m.value = v)

/-- Python `getattr(ColorPreset, name)`: the member with that exact name. -/
def ColorPreset.fromName (n : String) : Option ColorPreset :=
  ColorPreset.members.find? (fun m => m.memberName = n)

/-- Enumeration `PowerMode`, monitorcontrol.py lines 25-38. -/
inductive PowerMode
| on
| standby
| suspend
| off_soft
| off_hard
deriving DecidableEq, Repr

/-- Wire value of each `PowerMode` member, monitorcontrol.py lines 30-38. -/
def PowerMode.value : PowerMode → Int
| PowerMode.on => 0x01
| PowerMode.standby => 0x02
| PowerMode.suspend => 0x03
| PowerMode.off_soft => 0x04
| PowerMode.off_hard => 0x05

/-- Member name of each `PowerMode` member as declared. -/
def PowerMode.memberName : PowerMode → String
| PowerMode.on => "on"
| PowerMode.standby => "standby"
| PowerMode.suspend => "suspend"
| PowerMode.off_soft => "off_soft"
| PowerMode.off_hard => "off_hard"

/-- The members of `PowerMode` in declaration order. -/
def PowerMode.members : List PowerMode :=
  [PowerMode.on, PowerMode.standby, PowerMode.suspend,
   PowerMode.off_soft, PowerMode.off_hard]

/-- Python `PowerMode(value)`: the member with that wire value, if any. -/
def PowerMode.fromValue (v : Int) : Option PowerMode :=
  PowerMode.members.find? (fun m => m.value = v)

/-- Python `getattr(PowerMode, name)`: the member with that exact name. -/
def PowerMode.fromName (n : String) : Option PowerMode :=
  PowerMode.members.find? (fun m => m.memberName = n)

/-- Enumeration `InputSource`, monitorcontrol.py lines 41-63 (member names as
declared, including the source's `CMPONENT` spelling). -/
inductive InputSource
| OFF
| ANALOG1
| ANALOG2
| DVI1
| DVI2
| COMPOSITE1
| COMPOSITE2
| SVIDEO1
| SVIDEO2
| TUNER1
| TUNER2
| TUNER3
| CMPONENT1
| CMPONENT2
| CMPONENT3
| DP1
| DP2
| HDMI1
| HDMI2
deriving DecidableEq, Repr

/-- Wire value of each `InputSource` member, monitorcontrol.py lines 45-63. -/
def InputSource.value : InputSource → Int
| OFF => 0x00
| ANALOG1 => 0x01
| ANALOG2 => 0x02
| DVI1 => 0x03
| DVI2 => 0x04
| COMPOSITE1 => 0x05
| COMPOSITE2 => 0x06
| SVIDEO1 => 0x07
| SVIDEO2 => 0x08
| TUNER1 => 0x09
| TUNER2 => 0x0A
| TUNER3 => 0x0B
| CMPONENT1 => 0x0C
| CMPONENT2 => 0x0D
| CMPONENT3 => 0x0E
| DP1 => 0x0F
| DP2 => 0x10
| HDMI1 => 0x11
| HDMI2 => 0x12

/-- Member name of each `InputSource` member as declared. -/
def InputSource.memberName : InputSource → String
| OFF => "OFF"
| ANALOG1 => "ANALOG1"
| ANALOG2 => "ANALOG2"
| DVI1 => "DVI1"
| DVI2 => "DVI2"
| COMPOSITE1 => "COMPOSITE1"
| COMPOSITE2 => "COMPOSITE2"
| SVIDEO1 => "SVIDEO1"
| SVIDEO2 => "SVIDEO2"
| TUNER1 => "TUNER1"
| TUNER2 => "TUNER2"
| TUNER3 => "TUNER3"
| CMPONENT1 => "CMPONENT1"
| CMPONENT2 => "CMPONENT2"
| CMPONENT3 => "CMPONENT3"
| DP1 => "DP1"
| DP2 => "DP2"
| HDMI1 => "HDMI1"
| HDMI2 => "HDMI2"

/-- The members of `InputSource` in declaration order. -/
def InputSource.members : List InputSource :=
  [InputSource.OFF, InputSource.ANALOG1, InputSource.ANALOG2, InputSource.DVI1,
   InputSource.DVI2, InputSource.COMPOSITE1, InputSource.COMPOSITE2,
   InputSource.SVIDEO1, InputSource.SVIDEO2, InputSource.TUNER1,
   InputSource.TUNER2, InputSource.TUNER3, InputSource.CMPONENT1,
   InputSource.CMPONENT2, InputSource.CMPONENT3, InputSource.DP1,
   InputSource.DP2, InputSource.HDMI1, InputSource.HDMI2]

/-- Python `InputSource(value)`: the member with that wire value, if any. -/
def InputSource.fromValue (v : Int) : Option InputSource :=
  InputSource.members.find? (fun m => m.value = v)

/-- Python `getattr(InputSource, name)`: the member with that exact name. -/
def InputSource.fromName (n : String) : Option InputSource :=
  InputSource.members.find? (fun m => m.memberName = n)

/-- Modelled from the spec: resolution of a feature code from its symbolic
name, written `vcp.VCPCode(name)` throughout monitorcontrol.py (e.g. lines
105, 128, 188, 257, 293, 328, 365).  The name-keyed `VCPCode` class those call
sites refer to is absent from the current vcp_codes.py (it survives only in
that module's trailing comment block, which indexes `_VCP_CODE_DEFINTIONS` by
name); spec section 4.3 gives the pattern as `lookup(codeName)`, an exact name
match in the registry, failing with a key error when the name is absent. -/
def vcpCodeByName (name : String) : Except PyErr VCPCode :=
  match VCP_CODES.find? (fun c => c.name = name) with
  | some c => Except.ok c
  | none => Except.error PyErr.keyError

/-- Method `Monitor.get_luminance`, monitorcontrol.py lines 86-106: read the
`image_luminance` feature and return the current component. -/
def Monitor.get_luminance (s : VCPState) : Except PyErr (Int × VCPState) :=
  match vcpCodeByName "image_luminance" with
  | Except.error e => Except.error e
  | Except.ok code =>
    match VCP.get_vcp_feature s code with
    | Except.error e => Except.error e
    | Except.ok ((current, _), s1) => Except.ok (current, s1)

/-- Method `Monitor.set_luminance`, monitorcontrol.py lines 108-129: pass the
caller's value straight to the feature write, with no type or range check. -/
def Monitor.set_luminance (s : VCPState) (value : PyVal) : Except PyErr VCPState :=
  match vcpCodeByName "image_luminance" with
  | Except.error e => Except.error e
  | Except.ok code => VCP.set_vcp_feature s code value

/-- Method `Monitor.get_contrast`, monitorcontrol.py lines 191-211. -/
def Monitor.get_contrast (s : VCPState) : Except PyErr (Int × VCPState) :=
  match vcpCodeByName "image_contrast" with
  | Except.error e => Except.error e
  | Except.ok code =>
    match VCP.get_vcp_feature s code with
    | Except.error e => Except.error e
    | Except.ok ((current, _), s1) => Except.ok (current, s1)

/-- Method `Monitor.set_contrast`, monitorcontrol.py lines 213-234: like
`set_luminance`, no type or range check. -/
def Monitor.set_contrast (s : VCPState) (value : PyVal) : Except PyErr VCPState :=
  match vcpCodeByName "image_contrast" with
  | Except.error e => Except.error e
  | Except.ok code => VCP.set_vcp_feature s code value

/-- Method `Monitor.get_color_preset`, monitorcontrol.py lines 131-152: read
the `image_color_preset` feature and return the raw current component. -/
def Monitor.get_color_preset (s : VCPState) : Except PyErr (Int × VCPState) :=
  match vcpCodeByName "image_color_preset" with
  | Except.error e => Except.error e
  | Except.ok code =>
    match VCP.get_vcp_feature s code with
    | Except.error e => Except.error e
    | Except.ok ((current, _), s1) => Except.ok (current, s1)

/-- Method `Monitor.set_color_preset`, monitorcontrol.py lines 154-189:
normalize a string via `getattr(ColorPreset, value)` (line 180), an int via
`ColorPreset(value)` (line 182), an enumerated constant via `.value` (line
184), anything else raises TypeError (line 186); then write the wire value. -/
def Monitor.set_color_preset (s : VCPState) (value : PyVal ⊕ ColorPreset) :
    Except PyErr VCPState :=
  match (match value with
    | Sum.inl (PyVal.vStr n) =>
      match ColorPreset.fromName n with
      | some m => Except.ok m.value
      | none => Except.error (PyErr.unknownName n)
    | Sum.inl (PyVal.vInt n) =>
      match ColorPreset.fromValue n with
      | some m => Except.ok m.value
      | none => Except.error (PyErr.invalidValue n)
    | Sum.inr m => Except.ok m.value
    | Sum.inl (PyVal.vFloat _) => Except.error PyErr.unsupportedValueType) with
  | Except.error e => Except.error e
  | Except.ok mode_value =>
    match vcpCodeByName "image_color_preset" with
    | Except.error e => Except.error e
    | Except.ok code => VCP.set_vcp_feature s code (PyVal.vInt mode_value)

/-- Method `Monitor.get_power_mode`, monitorcontrol.py lines 236-258: read the
`display_power_mode` feature and decode the (unmasked) current component with
`PowerMode(...)`; a value matching no member propagates ValueError. -/
def Monitor.get_power_mode (s : VCPState) : Except PyErr (PowerMode × VCPState) :=
  match vcpCodeByName "display_power_mode" with
  | Except.error e => Except.error e
  | Except.ok code =>
    match VCP.get_vcp_feature s code with
    | Except.error e => Except.error e
    | Except.ok ((current, _), s1) =>
      match PowerMode.fromValue current with
      | some m => Except.ok (m, s1)
      | none => Except.error (PyErr.invalidValue current)

/-- Method `Monitor.set_power_mode`, monitorcontrol.py lines 260-294: same
normalization shape as `set_color_preset`, over `PowerMode` (lines 284-291),
then write the wire value to `display_power_mode`. -/
def Monitor.set_power_mode (s : VCPState) (value : PyVal ⊕ PowerMode) :
    Except PyErr VCPState :=
  match (match value with
    | Sum.inl (PyVal.vStr n) =>
      match PowerMode.fromName n with
      | some m => Except.ok m.value
      | none => Except.error (PyErr.unknownName n)
    | Sum.inl (PyVal.vInt n) =>
      match PowerMode.fromValue n with
      | some m => Except.ok m.value
      | none => Except.error (PyErr.invalidValue n)
    | Sum.inr m => Except.ok m.value
    | Sum.inl (PyVal.vFloat _) => Except.error PyErr.unsupportedValueType) with
  | Except.error e => Except.error e
  | Except.ok mode_value =>
    match vcpCodeByName "display_power_mode" with
    | Except.error e => Except.error e
    | Except.ok code => VCP.set_vcp_feature s code (PyVal.vInt mode_value)

/-- Method `Monitor.get_input_source`, monitorcontrol.py lines 296-333: read
the `input_select` feature, mask the current component to the low 8 bits
(line 329; on Python ints `value & 0xFF` equals `value mod 256`, embedded as
`Int.emod`, which is likewise non-negative), decode with `InputSource(...)`,
and on a ValueError raise `InputSourceValueError` carrying the masked value
(lines 330-333). -/
def Monitor.get_input_source (s : VCPState) : Except PyErr (InputSource × VCPState) :=
  match vcpCodeByName "input_select" with
  | Except.error e => Except.error e
  | Except.ok code =>
    match VCP.get_vcp_feature s code with
    | Except.error e => Except.error e
    | Except.ok ((current, _), s1) =>
      let value := Int.emod current 256
      match InputSource.fromValue value with
      | some m => Except.ok (m, s1)
      | none => Except.error (PyErr.inputSourceValueError value)

/-- Method `Monitor.set_input_source`, monitorcontrol.py lines 335-366:
normalize a string via `getattr(InputSource, value.upper())` (line 357,
case-insensitive through uppercasing), pass an int through UNCHANGED (line
359), take an enumerated constant's `.value` (line 361), anything else raises
TypeError (line 363); then write to `input_select`. -/
def Monitor.set_input_source (s : VCPState) (value : PyVal ⊕ InputSource) :
    Except PyErr VCPState :=
  match (match value with
    | Sum.inl (PyVal.vStr n) =>
      match InputSource.fromName n.toUpper with
      | some m => Except.ok m.value
      | none => Except.error (PyErr.unknownName n)
    | Sum.inl (PyVal.vInt n) => Except.ok n
    | Sum.inr m => Except.ok m.value
    | Sum.inl (PyVal.vFloat _) => Except.error PyErr.unsupportedValueType) with
  | Except.error e => Except.error e
  | Except.ok mode_value =>
    match vcpCodeByName "input_select" with
    | Except.error e => Except.error e
    | Except.ok code => VCP.set_vcp_feature s code (PyVal.vInt mode_value)

theorem vcpCodeSearch_str_missing (l : List VCPCode) (name : String)
    (h : ∀ c ∈ l, c.name ≠ name) :
    vcpCodeSearch l (VCPKey.str name) = Except.error PyErr.lookupError := by
  induction l with
  | nil => rfl
  | cons c rest ih =>
    have hc : c.name ≠ name := h c (List.mem_cons_self c rest)
    simp only [vcpCodeSearch, if_neg hc]
    exact ih (fun d hd => h d (List.mem_cons_of_mem c hd))

theorem vcpCodeSearch_int_missing (l : List VCPCode) (v : Nat)
    (h : ∀ c ∈ l, c.value ≠ v) :
    vcpCodeSearch l (VCPKey.int v) = Except.error PyErr.lookupError := by
  induction l with
  | nil => rfl
  | cons c rest ih =>
    have hc : c.value ≠ v := h c (List.mem_cons_self c rest)
    simp only [vcpCodeSearch, if_neg hc]
    exact ih (fun d hd => h d (List.mem_cons_of_mem c hd))

/-- C7: the registry is preloaded with exactly the eight codes
image_factory_default 0x04 (write-only, non-continuous), image_luminance 0x10
(read-write, continuous), image_contrast 0x12 (read-write, continuous),
image_color_preset 0x14 (read-write, continuous), active_control 0x52
(read-only, non-continuous), input_select 0x60 (read-write, non-continuous),
image_orientation 0xAA (read-only, non-continuous), display_power_mode 0xD6
(read-write, non-continuous), and for every preloaded code the derived
readable/writeable predicates match its access mode exactly. -/
theorem c7_registry_preloaded :
    VCP_CODES.map (fun c => (c.name, c.value, c.type, c.function)) =
      [("image_factory_default", 0x04, VCPCodeType.wo, VCPCodeFunction.nc),
       ("image_luminance", 0x10, VCPCodeType.rw, VCPCodeFunction.c),
       ("image_contrast", 0x12, VCPCodeType.rw, VCPCodeFunction.c),
       ("image_color_preset", 0x14, VCPCodeType.rw, VCPCodeFunction.c),
       ("active_control", 0x52, VCPCodeType.ro, VCPCodeFunction.nc),
       ("input_select", 0x60, VCPCodeType.rw, VCPCodeFunction.nc),
       ("image_orientation", 0xAA, VCPCodeType.ro, VCPCodeFunction.nc),
       ("display_power_mode", 0xD6, VCPCodeType.rw, VCPCodeFunction.nc)] ∧
    (∀ c ∈ VCP_CODES,
      (c.readable = true ↔ (c.type = VCPCodeType.ro ∨ c.type = VCPCodeType.rw)) ∧
      (c.writeable = true ↔ (c.type = VCPCodeType.wo ∨ c.type = VCPCodeType.rw))) := by
  decide

/-- C8: registry lookup matches a string key exactly on name and an integer
key exactly on value, so every preloaded code is found identically by its name
and by its numeric value; a key matching no entry fails with the lookup error
(NotFound) and a key that is neither a string nor an integer fails with the
invalid-key-type error. -/
theorem c8_lookup_by_name_and_value :
    (∀ c ∈ VCP_CODES,
       get_vcp_code (VCPKey.str c.name) = Except.ok c ∧
       get_vcp_code (VCPKey.int c.value) = Except.ok c) ∧
    (∀ name : String, (∀ c ∈ VCP_CODES, c.name ≠ name) →
       get_vcp_code (VCPKey.str name) = Except.error PyErr.lookupError) ∧
    (∀ v : Nat, (∀ c ∈ VCP_CODES, c.value ≠ v) →
       get_vcp_code (VCPKey.int v) = Except.error PyErr.lookupError) ∧
    get_vcp_code VCPKey.other = Except.error PyErr.invalidKeyType := by
  refine ⟨by decide, ?_, ?_, rfl⟩
  · intro name h
    exact vcpCodeSearch_str_missing VCP_CODES name h
  · intro v h
    exact vcpCodeSearch_int_missing VCP_CODES v h

/-- Witness for C8 at concrete missing keys. -/
theorem c8_lookup_witness :
    (∀ c ∈ VCP_CODES, c.name ≠ "brightness") ∧
    get_vcp_code (VCPKey.str "brightness") = Except.error PyErr.lookupError ∧
    (∀ c ∈ VCP_CODES, c.value ≠ 0x05) ∧
    get_vcp_code (VCPKey.int 0x05) = Except.error PyErr.lookupError :=
  ⟨by decide, c8_lookup_by_name_and_value.2.1 "brightness" (by decide),
   by decide, c8_lookup_by_name_and_value.2.2.1 0x05 (by decide)⟩

theorem addVcpCodeLoop_no_collision (l : List VCPCode) (n : VCPCode)
    (h : ∀ c ∈ l, c.name ≠ n.name ∧ c.value ≠ n.value) :
    addVcpCodeLoop l n = Except.ok () := by
  induction l with
  | nil => rfl
  | cons c rest ih =>
    have hc := h c (List.mem_cons_self c rest)
    have h1 : ¬ n.name = c.name := fun e => hc.1 e.symm
    have h2 : ¬ n.value = c.value := fun e => hc.2 e.symm
    simp only [addVcpCodeLoop, if_neg h1, if_neg h2]
    exact ih (fun d hd => h d (List.mem_cons_of_mem c hd))

theorem addVcpCodeLoop_name_collision (l : List VCPCode) (n : VCPCode)
    (hn : ∃ c ∈ l, c.name = n.name) (hv : ∀ c ∈ l, c.value ≠ n.value) :
    addVcpCodeLoop l n = Except.error (PyErr.duplicateName n.name) := by
  induction l with
  | nil => simp at hn
  | cons c rest ih =>
    by_cases h1 : n.name = c.name
    · simp only [addVcpCodeLoop, if_pos h1]
    · have h2 : ¬ n.value = c.value :=
        fun e => hv c (List.mem_cons_self c rest) e.symm
      simp only [addVcpCodeLoop, if_neg h1, if_neg h2]
      obtain ⟨d, hd, hdn⟩ := hn
      rcases List.mem_cons.mp hd with he | hrest
      · exact absurd (he ▸ hdn) (fun e => h1 e.symm)
      · exact ih ⟨d, hrest, hdn⟩ (fun d' hd' => hv d' (List.mem_cons_of_mem c hd'))

theorem addVcpCodeLoop_value_collision (l : List VCPCode) (n : VCPCode)
    (hv : ∃ c ∈ l, c.value = n.value) (hn : ∀ c ∈ l, c.name ≠ n.name) :
    addVcpCodeLoop l n = Except.error (PyErr.duplicateValue n.value) := by
  induction l with
  | nil => simp at hv
  | cons c rest ih =>
    have h1 : ¬ n.name = c.name :=
      fun e => hn c (List.mem_cons_self c rest) e.symm
    by_cases h2 : n.value = c.value
    · simp only [addVcpCodeLoop, if_neg h1, if_pos h2]
    · simp only [addVcpCodeLoop, if_neg h1, if_neg h2]
      obtain ⟨d, hd, hdv⟩ := hv
      rcases List.mem_cons.mp hd with he | hrest
      · exact absurd (he ▸ hdv) (fun e => h2 e.symm)
      · exact ih ⟨d, hrest, hdv⟩ (fun d' hd' => hn d' (List.mem_cons_of_mem c hd'))

theorem addVcpCodeLoop_any_collision (l : List VCPCode) (n : VCPCode)
    (h : ∃ c ∈ l, c.name = n.name ∨ c.value = n.value) :
    addVcpCodeLoop l n = Except.error (PyErr.duplicateName n.name) ∨
    addVcpCodeLoop l n = Except.error (PyErr.duplicateValue n.value) := by
  induction l with
  | nil => simp at h
  | cons c rest ih =>
    by_cases h1 : n.name = c.name
    · exact Or.inl (by simp only [addVcpCodeLoop, if_pos h1])
    · by_cases h2 : n.value = c.value
      · exact Or.inr (by simp only [addVcpCodeLoop, if_neg h1, if_pos h2])
      · have hstep : addVcpCodeLoop (c :: rest) n = addVcpCodeLoop rest n := by
          simp only [addVcpCodeLoop, if_neg h1, if_neg h2]
        rw [hstep]
        obtain ⟨d, hd, hdc⟩ := h
        rcases List.mem_cons.mp hd with he | hrest
        · subst he
          rcases hdc with e | e
          · exact absurd e.symm h1
          · exact absurd e.symm h2
        · exact ih ⟨d, hrest, hdc⟩

/-- C9: against a registry with pairwise-unique names and values, registration
fails with the duplicate-name error when an existing entry shares the new
code's name (and none shares its value), with the duplicate-value error when
one shares its value (and none its name), with one of the two duplicate errors
whenever any collision exists (the registry being returned unchanged in every
failure, since the append runs only after the collision loop), and on a
collision-free code it appends the code and pairwise uniqueness of names and
values is preserved. -/
theorem c9_register_preserves_uniqueness (codes : List VCPCode) (n : VCPCode)
    (hu : registryUnique codes) :
    ((∃ c ∈ codes, c.name = n.name) ∧ (∀ c ∈ codes, c.value ≠ n.value) →
       add_vcp_code codes n = Except.error (PyErr.duplicateName n.name)) ∧
    ((∃ c ∈ codes, c.value = n.value) ∧ (∀ c ∈ codes, c.name ≠ n.name) →
       add_vcp_code codes n = Except.error (PyErr.duplicateValue n.value)) ∧
    ((∃ c ∈ codes, c.name = n.name ∨ c.value = n.value) →
       add_vcp_code codes n = Except.error (PyErr.duplicateName n.name) ∨
       add_vcp_code codes n = Except.error (PyErr.duplicateValue n.value)) ∧
    ((∀ c ∈ codes, c.name ≠ n.name ∧ c.value ≠ n.value) →
       add_vcp_code codes n = Except.ok (codes ++ [n]) ∧
       registryUnique (codes ++ [n])) := by
  refine ⟨?_, ?_, ?_, ?_⟩
  · intro ⟨hn, hv⟩
    unfold add_vcp_code
    rw [addVcpCodeLoop_name_collision codes n hn hv]
  · intro ⟨hv, hn⟩
    unfold add_vcp_code
    rw [addVcpCodeLoop_value_collision codes n hv hn]
  · intro h
    unfold add_vcp_code
    rcases addVcpCodeLoop_any_collision codes n h with e | e
    · exact Or.inl (by rw [e])
    · exact Or.inr (by rw [e])
  · intro h
    constructor
    · unfold add_vcp_code
      rw [addVcpCodeLoop_no_collision codes n h]
    · unfold registryUnique
      rw [List.pairwise_append]
      refine ⟨hu, List.pairwise_singleton _ _, ?_⟩
      intro a ha b hb
      rw [List.mem_singleton.mp hb]
      exact h a ha

/-- Witness for C9: the preloaded registry is pairwise unique; registering a
fresh code succeeds with an append, registering a name collision fails with
the duplicate-name error, and a value collision fails with the
duplicate-value error. -/
theorem c9_register_witness :
    registryUnique VCP_CODES ∧
    add_vcp_code VCP_CODES
        { name := "image_sharpness", desc := "sharpness",
          value := 0x87, type := VCPCodeType.rw, function := VCPCodeFunction.c } =
      Except.ok (VCP_CODES ++
        [{ name := "image_sharpness", desc := "sharpness",
           value := 0x87, type := VCPCodeType.rw, function := VCPCodeFunction.c }]) ∧
    add_vcp_code VCP_CODES
        { name := "image_luminance", desc := "again",
          value := 0x87, type := VCPCodeType.rw, function := VCPCodeFunction.c } =
      Except.error (PyErr.duplicateName "image_luminance") ∧
    add_vcp_code VCP_CODES
        { name := "image_luminance2", desc := "again",
          value := 0x10, type := VCPCodeType.rw, function := VCPCodeFunction.c } =
      Except.error (PyErr.duplicateValue 0x10) :=
  ⟨by decide,
   ((c9_register_preserves_uniqueness VCP_CODES _ (by decide)).2.2.2 (by decide)).1,
   (c9_register_preserves_uniqueness VCP_CODES _ (by decide)).1 ⟨by decide, by decide⟩,
   (c9_register_preserves_uniqueness VCP_CODES _ (by decide)).2.1 ⟨by decide, by decide⟩⟩

/-- A concrete transport for closed evaluations: every opcode reads back as
current 3, maximum 100. -/
def demoDevice : Nat → Int × Int := fun _ => (3, 100)

/-- C1: the claim (matching the docstring of `_get_code_maximum`, vcp_abc.py
lines 94-95) says a non-readable code fails with the not-readable error.
Evaluating the embedded code on the write-only `image_factory_default` inside
an open session shows the call instead succeeds: it performs one transport
read, caches the maximum under opcode 0x04, and returns it, because the
condition at vcp_abc.py line 98 tests the truthiness of the un-called bound
method `code.readable` and so never fires. -/
theorem c1_write_only_code_read_and_cached :
    image_factory_default.readable = false ∧
    (VCP.getCodeMaximum (VCP.enter (VCP.initState demoDevice)) image_factory_default).map
        (fun p => (p.1, p.2.readCount, p.2.code_maximum)) =
      Except.ok (100, 1, [(0x04, 100)]) :=
  ⟨rfl, rfl⟩

/-- Enter a fresh session on transport `d`, read `code`'s cached maximum, exit,
re-enter, read it again; report both returned values with the transport read
counter observed after each call. -/
def cachedMaxTwice (d : Nat → Int × Int) (code : VCPCode) :
    Except PyErr (Int × Nat × Int × Nat) :=
  match VCP.getCodeMaximum (VCP.enter (VCP.initState d)) code with
  | Except.error e => Except.error e
  | Except.ok (v1, s1) =>
    match VCP.getCodeMaximum (VCP.enter (VCP.exitState s1)) code with
    | Except.error e => Except.error e
    | Except.ok (v2, s3) => Except.ok (v1, s1.readCount, v2, s3.readCount)

/-- The maximum-value cache as observed right after session exit in the
enter-read-exit sequence on `demoDevice`. -/
def c2CacheAfterExit : List (Nat × Int) :=
  match VCP.getCodeMaximum (VCP.enter (VCP.initState demoDevice)) image_luminance with
  | Except.ok (_, s1) => (VCP.exitState s1).code_maximum
  | Except.error _ => []

/-- C2 (counterexample): after entering, reading the continuous
`image_luminance` maximum, and exiting, the cache still holds the entry
(0x10, 100) — it is not empty as the claim states — and re-entering and
re-reading leaves the transport read counter at 1, i.e. the second session
performs zero new transport reads, not exactly one. -/
theorem c2_cache_survives_exit_counterexample :
    c2CacheAfterExit = [(0x10, 100)] ∧ c2CacheAfterExit ≠ [] ∧
    cachedMaxTwice demoDevice image_luminance = Except.ok (100, 1, 100, 1) :=
  ⟨rfl, by decide, rfl⟩

/-- C2 (amended): session exit clears the open flag but leaves the
maximum-value cache intact, so the sequence enter, read a continuous code via
the cached-maximum path, exit, re-enter, read the same code again returns the
same maximum while the transport read counter stays at 1: the second session
performs zero new transport reads. -/
theorem c2_exit_clears_flag_but_not_cache :
    (∀ s : VCPState, (VCP.exitState s).in_ctx = false ∧
       (VCP.exitState s).code_maximum = s.code_maximum) ∧
    (∀ d : Nat → Int × Int,
       cachedMaxTwice d image_luminance =
         Except.ok ((d 0x10).2, 1, (d 0x10).2, 1)) :=
  ⟨fun _ => ⟨rfl, rfl⟩, fun _ => rfl⟩

theorem get_input_source_reduce (s : VCPState) (h : s.in_ctx = true) :
    Monitor.get_input_source s =
      match InputSource.fromValue (Int.emod (s.device 0x60).1 256) with
      | some m => Except.ok (m, { s with readCount := s.readCount + 1 })
      | none =>
          Except.error (PyErr.inputSourceValueError (Int.emod (s.device 0x60).1 256)) := by
  obtain ⟨cm, ictx, dev, rc, wl⟩ := s
  have h2 : ictx = true := h
  subst h2
  rfl

theorem get_power_mode_reduce (s : VCPState) (h : s.in_ctx = true) :
    Monitor.get_power_mode s =
      match PowerMode.fromValue (s.device 0xD6).1 with
      | some m => Except.ok (m, { s with readCount := s.readCount + 1 })
      | none => Except.error (PyErr.invalidValue (s.device 0xD6).1) := by
  obtain ⟨cm, ictx, dev, rc, wl⟩ := s
  have h2 : ictx = true := h
  subst h2
  rfl

/-- C3: inside an open session, getting the input source masks the transport's
current value to the low 8 bits; a masked byte 0x11 decodes to HDMI1, and any
masked byte matching no InputSource member yields the distinguishable
input-source-value error carrying that raw byte, not a generic decode
error. -/
theorem c3_input_source_decode_tolerant (s : VCPState) (h : s.in_ctx = true) :
    (Int.emod (s.device 0x60).1 256 = 0x11 →
       Monitor.get_input_source s =
         Except.ok (InputSource.HDMI1, { s with readCount := s.readCount + 1 })) ∧
    (∀ b : Int, Int.emod (s.device 0x60).1 256 = b → InputSource.fromValue b = none →
       Monitor.get_input_source s = Except.error (PyErr.inputSourceValueError b)) := by
  constructor
  · intro hb
    rw [get_input_source_reduce s h, hb]
    rfl
  · intro b hb hnone
    rw [get_input_source_reduce s h, hb, hnone]

/-- Transport whose every current value is 0x11. -/
def c3DeviceA : Nat → Int × Int := fun _ => (0x11, 0)

/-- Transport whose every current value is 0x7F. -/
def c3DeviceB : Nat → Int × Int := fun _ => (0x7F, 0)

/-- Witness for C3 at the transports reporting 0x11 and 0x7F. -/
theorem c3_input_source_witness :
    (VCP.enter (VCP.initState c3DeviceA)).in_ctx = true ∧
    Int.emod ((VCP.enter (VCP.initState c3DeviceA)).device 0x60).1 256 = 0x11 ∧
    Monitor.get_input_source (VCP.enter (VCP.initState c3DeviceA)) =
      Except.ok (InputSource.HDMI1,
        { VCP.enter (VCP.initState c3DeviceA) with
            readCount := (VCP.enter (VCP.initState c3DeviceA)).readCount + 1 }) ∧
    InputSource.fromValue 0x7F = none ∧
    Monitor.get_input_source (VCP.enter (VCP.initState c3DeviceB)) =
      Except.error (PyErr.inputSourceValueError 0x7F) :=
  ⟨rfl, rfl, (c3_input_source_decode_tolerant _ rfl).1 rfl, rfl,
   (c3_input_source_decode_tolerant _ rfl).2 0x7F rfl rfl⟩

/-- C4: with the open flag false, the feature read and the feature write (in
every call shape, including the opcode-keyed read used by the cache and the
typed-accessor entry points) fail with the not-open error, for every feature
code and value. -/
theorem c4_not_open_rejected (s : VCPState) (code : VCPCode) (value : PyVal)
    (h : s.in_ctx = false) :
    VCP.get_vcp_feature s code = Except.error PyErr.notOpen ∧
    VCP.set_vcp_feature s code value = Except.error PyErr.notOpen ∧
    VCP.get_vcp_feature_by_value s code.value = Except.error PyErr.notOpen ∧
    VCP.getCodeMaximum s code = Except.error PyErr.notOpen ∧
    Monitor.get_luminance s = Except.error PyErr.notOpen ∧
    Monitor.set_luminance s value = Except.error PyErr.notOpen := by
  obtain ⟨cm, ictx, dev, rc, wl⟩ := s
  have h2 : ictx = false := h
  subst h2
  exact ⟨rfl, rfl, rfl, rfl, rfl, rfl⟩

/-- Witness for C4 on a freshly constructed (closed) session. -/
theorem c4_not_open_witness :
    (VCP.initState demoDevice).in_ctx = false ∧
    VCP.get_vcp_feature (VCP.initState demoDevice) image_luminance =
      Except.error PyErr.notOpen ∧
    VCP.set_vcp_feature (VCP.initState demoDevice) image_luminance (PyVal.vInt 50) =
      Except.error PyErr.notOpen ∧
    Monitor.get_luminance (VCP.initState demoDevice) = Except.error PyErr.notOpen :=
  ⟨rfl, (c4_not_open_rejected _ image_luminance (PyVal.vInt 50) rfl).1,
   (c4_not_open_rejected _ image_luminance (PyVal.vInt 50) rfl).2.1,
   (c4_not_open_rejected _ image_luminance (PyVal.vInt 50) rfl).2.2.2.2.1⟩

/-- C5: inside an open session, setting the color preset with the integer
0x04, with the symbolic name COLOR_TEMP_5000K, and with the enumerated 5000K
constant all produce the identical wire write (0x14, 0x04); setting power mode
with the string standby writes (0xD6, 0x02); and getting power mode when the
transport reports current value 0x02 returns the standby constant. -/
theorem c5_setter_form_independent (s : VCPState) (h : s.in_ctx = true) :
    Monitor.set_color_preset s (Sum.inl (PyVal.vInt 0x04)) =
      Except.ok { s with writeLog := s.writeLog ++ [(0x14, PyVal.vInt 0x04)] } ∧
    Monitor.set_color_preset s (Sum.inl (PyVal.vStr "COLOR_TEMP_5000K")) =
      Except.ok { s with writeLog := s.writeLog ++ [(0x14, PyVal.vInt 0x04)] } ∧
    Monitor.set_color_preset s (Sum.inr ColorPreset.COLOR_TEMP_5000K) =
      Except.ok { s with writeLog := s.writeLog ++ [(0x14, PyVal.vInt 0x04)] } ∧
    Monitor.set_power_mode s (Sum.inl (PyVal.vStr "standby")) =
      Except.ok { s with writeLog := s.writeLog ++ [(0xD6, PyVal.vInt 0x02)] } ∧
    ((s.device 0xD6).1 = 0x02 →
       Monitor.get_power_mode s =
         Except.ok (PowerMode.standby, { s with readCount := s.readCount + 1 })) := by
  obtain ⟨cm, ictx, dev, rc, wl⟩ := s
  have h2 : ictx = true := h
  subst h2
  refine ⟨rfl, rfl, rfl, rfl, ?_⟩
  intro hd
  rw [get_power_mode_reduce _ rfl, hd]
  rfl

/-- Transport whose every current value is 0x02. -/
def powerDevice : Nat → Int × Int := fun _ => (0x02, 0)

/-- Witness for C5 on an open session over `powerDevice`. -/
theorem c5_setter_witness :
    (VCP.enter (VCP.initState powerDevice)).in_ctx = true ∧
    Monitor.set_color_preset (VCP.enter (VCP.initState powerDevice))
        (Sum.inl (PyVal.vInt 0x04)) =
      Except.ok { VCP.enter (VCP.initState powerDevice) with
        writeLog := (VCP.enter (VCP.initState powerDevice)).writeLog ++
          [(0x14, PyVal.vInt 0x04)] } ∧
    Monitor.set_power_mode (VCP.enter (VCP.initState powerDevice))
        (Sum.inl (PyVal.vStr "standby")) =
      Except.ok { VCP.enter (VCP.initState powerDevice) with
        writeLog := (VCP.enter (VCP.initState powerDevice)).writeLog ++
          [(0xD6, PyVal.vInt 0x02)] } ∧
    ((VCP.enter (VCP.initState powerDevice)).device 0xD6).1 = 0x02 ∧
    Monitor.get_power_mode (VCP.enter (VCP.initState powerDevice)) =
      Except.ok (PowerMode.standby, { VCP.enter (VCP.initState powerDevice) with
        readCount := (VCP.enter (VCP.initState powerDevice)).readCount + 1 }) :=
  ⟨rfl, (c5_setter_form_independent _ rfl).1, (c5_setter_form_independent _ rfl).2.2.2.1,
   rfl, (c5_setter_form_independent _ rfl).2.2.2.2 rfl⟩

theorem set_color_preset_int_invalid (s : VCPState) (n : Int)
    (hn : ColorPreset.fromValue n = none) :
    Monitor.set_color_preset s (Sum.inl (PyVal.vInt n)) =
      Except.error (PyErr.invalidValue n) := by
  simp only [Monitor.set_color_preset]
  rw [hn]

theorem set_power_mode_int_invalid (s : VCPState) (n : Int)
    (hn : PowerMode.fromValue n = none) :
    Monitor.set_power_mode s (Sum.inl (PyVal.vInt n)) =
      Except.error (PyErr.invalidValue n) := by
  simp only [Monitor.set_power_mode]
  rw [hn]

/-- An open session over `demoDevice`, used for closed evaluations. -/
def c6S : VCPState := VCP.enter (VCP.initState demoDevice)

/-- C6 (counterexample): 0x7F matches no InputSource member, yet setting the
input source to the integer 0x7F inside an open session succeeds and performs
the wire write (0x60, 0x7F) instead of failing with the invalid-value error;
and passing a float to set_luminance succeeds and performs a transport write
instead of failing with the unsupported-value-type error. -/
theorem c6_counterexample_unvalidated_writes :
    InputSource.fromValue 0x7F = none ∧
    (Monitor.set_input_source c6S (Sum.inl (PyVal.vInt 0x7F))).map (fun st => st.writeLog) =
      Except.ok [(0x60, PyVal.vInt 0x7F)] ∧
    (Monitor.set_luminance c6S (PyVal.vFloat 50)).map (fun st => st.writeLog) =
      Except.ok [(0x10, PyVal.vFloat 50)] :=
  ⟨rfl, rfl, rfl⟩

/-- C6 (amended): for the enumerated color-preset and power-mode setters an
integer outside the enumeration's known values fails with the invalid-value
error, and the three union-typed setters (color preset, power mode, input
source) fail with the unsupported-value-type error on a float — in each such
failure the error is raised during normalization, before any transport write;
but the input-source setter passes any integer through unvalidated to the
wire, and set_luminance performs no type check and passes any value, float
included, through to the transport write. -/
theorem c6_amended_normalization_failures (s : VCPState) (n : Int) (tag : Nat)
    (x : PyVal) :
    (ColorPreset.fromValue n = none →
       Monitor.set_color_preset s (Sum.inl (PyVal.vInt n)) =
         Except.error (PyErr.invalidValue n)) ∧
    (PowerMode.fromValue n = none →
       Monitor.set_power_mode s (Sum.inl (PyVal.vInt n)) =
         Except.error (PyErr.invalidValue n)) ∧
    Monitor.set_color_preset s (Sum.inl (PyVal.vFloat tag)) =
      Except.error PyErr.unsupportedValueType ∧
    Monitor.set_power_mode s (Sum.inl (PyVal.vFloat tag)) =
      Except.error PyErr.unsupportedValueType ∧
    Monitor.set_input_source s (Sum.inl (PyVal.vFloat tag)) =
      Except.error PyErr.unsupportedValueType ∧
    (s.in_ctx = true →
       Monitor.set_input_source s (Sum.inl (PyVal.vInt n)) =
         Except.ok { s with writeLog := s.writeLog ++ [(0x60, PyVal.vInt n)] } ∧
       Monitor.set_luminance s x =
         Except.ok { s with writeLog := s.writeLog ++ [(0x10, x)] }) := by
  refine ⟨set_color_preset_int_invalid s n, set_power_mode_int_invalid s n,
    rfl, rfl, rfl, ?_⟩
  intro h
  obtain ⟨cm, ictx, dev, rc, wl⟩ := s
  have h2 : ictx = true := h
  subst h2
  exact ⟨rfl, rfl⟩

/-- Witness for C6 (amended) at concrete inputs. -/
theorem c6_amended_witness :
    ColorPreset.fromValue 999 = none ∧
    Monitor.set_color_preset c6S (Sum.inl (PyVal.vInt 999)) =
      Except.error (PyErr.invalidValue 999) ∧
    c6S.in_ctx = true ∧
    Monitor.set_luminance c6S (PyVal.vFloat 50) =
      Except.ok { c6S with writeLog := c6S.writeLog ++ [(0x10, PyVal.vFloat 50)] } :=
  ⟨rfl, (c6_amended_normalization_failures c6S 999 7 (PyVal.vFloat 50)).1 rfl, rfl,
   ((c6_amended_normalization_failures c6S 999 7 (PyVal.vFloat 50)).2.2.2.2.2 rfl).2⟩

/-- C10: each domain enumeration assigns pairwise-distinct wire values to its
members; decoding is therefore deterministic and round-trips: every PowerMode
member is recovered by value, every InputSource member is recovered by value,
and inside an open session getting power mode when the transport reports a
member's value returns exactly that member, likewise for input source on the
masked byte. -/
theorem c10_enum_values_distinct_roundtrip :
    (∀ a b : ColorPreset, a.value = b.value → a = b) ∧
    (∀ a b : PowerMode, a.value = b.value → a = b) ∧
    (∀ a b : InputSource, a.value = b.value → a = b) ∧
    (∀ m : PowerMode, PowerMode.fromValue m.value = some m) ∧
    (∀ i : InputSource, InputSource.fromValue i.value = some i) ∧
    (∀ s : VCPState, s.in_ctx = true →
       (∀ m : PowerMode, (s.device 0xD6).1 = m.value →
          Monitor.get_power_mode s =
            Except.ok (m, { s with readCount := s.readCount + 1 })) ∧
       (∀ i : InputSource, Int.emod (s.device 0x60).1 256 = i.value →
          Monitor.get_input_source s =
            Except.ok (i, { s with readCount := s.readCount + 1 }))) := by
  refine ⟨?_, ?_, ?_, ?_, ?_, ?_⟩
  · intro a b hv
    cases a <;> cases b <;> first | rfl | exact absurd hv (by decide)
  · intro a b hv
    cases a <;> cases b <;> first | rfl | exact absurd hv (by decide)
  · intro a b hv
    cases a <;> cases b <;> first | rfl | exact absurd hv (by decide)
  · intro m
    cases m <;> rfl
  · intro i
    cases i <;> rfl
  · intro s h
    constructor
    · intro m hd
      rw [get_power_mode_reduce s h, hd]
      cases m <;> rfl
    · intro i hd
      rw [get_input_source_reduce s h, hd]
      cases i <;> rfl

/-- Transport reporting 0x02 on the power-mode opcode and 0x11 elsewhere. -/
def c10Device : Nat → Int × Int := fun v => (if v = 0xD6 then 0x02 else 0x11, 0)

/-- Witness for C10's round-trip conjuncts on an open session. -/
theorem c10_roundtrip_witness :
    (VCP.enter (VCP.initState c10Device)).in_ctx = true ∧
    ((VCP.enter (VCP.initState c10Device)).device 0xD6).1 = PowerMode.standby.value ∧
    Monitor.get_power_mode (VCP.enter (VCP.initState c10Device)) =
      Except.ok (PowerMode.standby, { VCP.enter (VCP.initState c10Device) with
        readCount := (VCP.enter (VCP.initState c10Device)).readCount + 1 }) ∧
    Int.emod ((VCP.enter (VCP.initState c10Device)).device 0x60).1 256 =
      InputSource.HDMI1.value ∧
    Monitor.get_input_source (VCP.enter (VCP.initState c10Device)) =
      Except.ok (InputSource.HDMI1, { VCP.enter (VCP.initState c10Device) with
        readCount := (VCP.enter (VCP.initState c10Device)).readCount + 1 }) :=
  ⟨rfl, rfl,
   (c10_enum_values_distinct_roundtrip.2.2.2.2.2 _ rfl).1 PowerMode.standby rfl,
   rfl,
   (c10_enum_values_distinct_roundtrip.2.2.2.2.2 _ rfl).2 InputSource.HDMI1 rfl⟩
